import Mathlib

/-!
Verification of `constrained_integrator.py` and
`multi_bodies/multi_bodies_functions.py` from the RigidMultiblobsWall
repository, via a shallow embedding in Lean 4.

Real numbers of the Python code are modelled as `ℚ` (exact arithmetic);
Python lists / numpy arrays as `List`; a raised exception or a
`sys.exit()` as an error value.
-/

/-- Errors raised (or process exits performed) by
`ConstrainedIntegrator.__init__`:
`nonSquareMobility` models the `print` + `sys.exit()` on a non-square
mobility matrix (lines 26-30), `unrecognizedScheme` models the
`NotImplementedError` raised for a scheme other than "RFD" or "EULER"
(lines 34-36). -/
inductive InitError where
  | nonSquareMobility
  | unrecognizedScheme
deriving DecidableEq

/-- Error for the unreachable `else` branch of `TimeStep`
(`print` + `sys.exit()`, lines 49-51). -/
inductive StepError where
  | unreachableScheme
deriving DecidableEq

/-- Python `NameError`: raised when an unbound name is evaluated.
`ApplyMobility` hits it at line 63, where `zeros` is evaluated but never
bound (the module's only import is `sys`). -/
inductive PyErr where
  | nameError
deriving DecidableEq

/-- The state of a `ConstrainedIntegrator` object: the fields assigned in
`__init__` (lines 23-25, 32, 38 of `constrained_integrator.py`). -/
structure ConstrainedIntegrator where
  surface_function : List ℚ → ℚ
  mobility : List (List ℚ)
  dim : Nat
  current_time : ℚ
  scheme : String

/-- `ConstrainedIntegrator.__init__(surface_function, mobility, scheme)`
(lines 7-38): stores the surface function and the mobility, sets
`dim = len(mobility)`, exits if some row's length differs from `dim`,
sets `current_time = 0.`, and raises `NotImplementedError` unless the
scheme is "RFD" or "EULER". -/
def initIntegrator (surface_function : List ℚ → ℚ) (mobility : List (List ℚ))
    (scheme : String) : Except InitError ConstrainedIntegrator :=
  let dim := mobility.length
  if mobility.any (fun row => row.length != dim) then
    Except.error InitError.nonSquareMobility
  else if scheme ∉ (["RFD", "EULER"] : List String) then
    Except.error InitError.unrecognizedScheme
  else
    Except.ok ⟨surface_function, mobility, dim, 0, scheme⟩

/-- `ConstrainedIntegrator.RFDTimeStep(dt)` (lines 72-73): the body is
`pass`, so the object state is unchanged. -/
def RFDTimeStep (dt : ℚ) (s : ConstrainedIntegrator) : ConstrainedIntegrator := s

/-- `ConstrainedIntegrator.EulerTimeStep(dt)` (lines 69-70): the body is
`pass`, so the object state is unchanged. -/
def EulerTimeStep (dt : ℚ) (s : ConstrainedIntegrator) : ConstrainedIntegrator := s

/-- `ConstrainedIntegrator.TimeStep(dt)` (lines 40-51): dispatches on
`self.scheme`; the result is the object state after the call together with
the error raised (if any).  Note the method performs no check on `dt` and
no assignment to any field. -/
def TimeStep (dt : ℚ) (s : ConstrainedIntegrator) :
    ConstrainedIntegrator × Option StepError :=
  if s.scheme = "RFD" then (RFDTimeStep dt s, none)
  else if s.scheme = "EULER" then (EulerTimeStep dt s, none)
  else (s, some StepError.unreachableScheme)

/-- `N` successive calls of `TimeStep(dt)`, stopping at the first error. -/
def TimeStepN (dt : ℚ) : Nat → ConstrainedIntegrator → ConstrainedIntegrator × Option StepError
  | 0, s => (s, none)
  | n + 1, s =>
    match TimeStep dt s with
    | (s', none) => TimeStepN dt n s'
    | (s', some e) => (s', some e)

/-- `ConstrainedIntegrator.ApplyMobility(force)` (lines 53-67): the first
statement of the body, `velocity = zeros(self.dim)` (line 63), evaluates
the name `zeros`, which is unbound — the module's only import is `sys`
(line 1) and `zeros` is defined nowhere in the file — so every call raises
`NameError` before the loops of lines 64-66 run, and no velocity is ever
returned. -/
def ApplyMobility (s : ConstrainedIntegrator) (force : List ℚ) :
    Except PyErr (List ℚ) :=
  Except.error PyErr.nameError

/-- Mathematical dot product of two rational lists (truncating at the
shorter length). -/
def dotQ (a b : List ℚ) : ℚ := (List.zipWith (fun x y => x * y) a b).sum

/-- Mathematical dense matrix-vector product. -/
def matvecQ (M : List (List ℚ)) (v : List ℚ) : List ℚ :=
  M.map (fun row => dotQ row v)

/-- The matrix is symmetric on its index range. -/
abbrev SymmetricMat (M : List (List ℚ)) : Prop :=
  ∀ i : Fin M.length, ∀ j : Fin M.length,
    (M.get i).getD j.1 0 = (M.get j).getD i.1 0

/-- The matrix is positive semi-definite: `vᵀ M v ≥ 0` for vectors of
matching length. -/
def PSDMat (M : List (List ℚ)) : Prop :=
  ∀ v : List ℚ, v.length = M.length → 0 ≤ dotQ v (matvecQ M v)

/-- Claim C3: construction succeeds exactly when every row of the mobility
has length equal to the number of rows (square matrix) and the scheme is
one of "RFD", "EULER"; otherwise it fails with the corresponding error. -/
theorem construction_ok_iff (sf : List ℚ → ℚ) (M : List (List ℚ)) (sch : String) :
    (∃ s, initIntegrator sf M sch = Except.ok s) ↔
      ((∀ row ∈ M, row.length = M.length) ∧ sch ∈ (["RFD", "EULER"] : List String)) := by
  constructor
  · rintro ⟨s, hs⟩
    unfold initIntegrator at hs
    by_cases h1 : M.any (fun row => row.length != M.length)
    · simp [h1] at hs
    · by_cases h2 : sch ∈ (["RFD", "EULER"] : List String)
      · refine ⟨?_, h2⟩
        intro row hrow
        by_contra hne
        exact h1 (List.any_eq_true.mpr ⟨row, hrow, bne_iff_ne.mpr hne⟩)
      · simp [h1, h2] at hs
  · rintro ⟨hsq, hmem⟩
    have h1 : M.any (fun row => row.length != M.length) = false := by
      rw [List.any_eq_false]
      intro row hrow
      simp [hsq row hrow]
    refine ⟨⟨sf, M, M.length, 0, sch⟩, ?_⟩
    unfold initIntegrator
    simp [h1, hmem]

theorem timeStep_valid (dt : ℚ) (s : ConstrainedIntegrator)
    (h : s.scheme = "RFD" ∨ s.scheme = "EULER") : TimeStep dt s = (s, none) := by
  rcases h with h | h
  · simp [TimeStep, h, RFDTimeStep]
  · have hne : ¬ s.scheme = "RFD" := by rw [h]; decide
    simp [TimeStep, hne, h, EulerTimeStep]

theorem timeStepN_state (dt : ℚ) :
    ∀ (n : Nat) (s : ConstrainedIntegrator),
      (TimeStepN dt n s).2 = none → (TimeStepN dt n s).1 = s := by
  intro n
  induction n with
  | zero => intro s _; rfl
  | succ n ih =>
    intro s h
    by_cases hv : s.scheme = "RFD" ∨ s.scheme = "EULER"
    · have hts := timeStep_valid dt s hv
      simp only [TimeStepN, hts] at h ⊢
      exact ih s h
    · push_neg at hv
      have hts : TimeStep dt s = (s, some StepError.unreachableScheme) := by
        simp [TimeStep, hv.1, hv.2]
      simp [TimeStepN, hts] at h

theorem initIntegrator_current_time (sf : List ℚ → ℚ) (M : List (List ℚ))
    (sch : String) (s0 : ConstrainedIntegrator)
    (h : initIntegrator sf M sch = Except.ok s0) : s0.current_time = 0 := by
  unfold initIntegrator at h
  by_cases h1 : M.any (fun row => row.length != M.length)
  · simp [h1] at h
  · by_cases h2 : sch ∈ (["RFD", "EULER"] : List String)
    · simp [h1, h2] at h
      cases h
      rfl
    · simp [h1, h2] at h

/-- Claim C1: for an integrator whose scheme is "EULER" or "RFD" and whose
mobility is square, symmetric and positive semi-definite, `TimeStep(dt)`
raises no error, and any configuration `x` satisfying
`|surface_function x| < tol` before the call still satisfies it after the
call: the (stub) stepping routines modify nothing, so the step never
commits an off-manifold state. -/
theorem time_step_preserves_surface (dt : ℚ) (s : ConstrainedIntegrator)
    (x : List ℚ) (tol : ℚ)
    (hscheme : s.scheme = "RFD" ∨ s.scheme = "EULER")
    (hsq : ∀ row ∈ s.mobility, row.length = s.mobility.length)
    (hsym : SymmetricMat s.mobility) (hpsd : PSDMat s.mobility)
    (hx : |s.surface_function x| < tol) :
    (TimeStep dt s).2 = none ∧
      |((TimeStep dt s).1).surface_function x| < tol := by
  rw [timeStep_valid dt s hscheme]
  exact ⟨rfl, hx⟩

theorem time_step_preserves_surface_witness :
    (TimeStep 1 ⟨fun _ => 0, [[1]], 1, 0, "EULER"⟩).2 = none ∧
      |((TimeStep 1 ⟨fun _ => 0, [[1]], 1, 0, "EULER"⟩).1).surface_function [0]| < 1 :=
  time_step_preserves_surface 1 ⟨fun _ => 0, [[1]], 1, 0, "EULER"⟩ [0] 1
    (Or.inr rfl)
    (by decide)
    (by decide)
    (by
      intro v hv
      obtain ⟨a, rfl⟩ := List.length_eq_one.mp (by simpa using hv)
      simp [dotQ, matvecQ]
      nlinarith [mul_self_nonneg a])
    (by simp)

/-- Claim C2 (amended): `TimeStep` never modifies `current_time` (the
stepping schemes are unimplemented no-ops), so after `N` successful steps
of any size from a freshly constructed integrator, `current_time` still
equals `0`, not `N·dt`. -/
theorem time_step_current_time_unchanged (sf : List ℚ → ℚ) (M : List (List ℚ))
    (sch : String) (s0 : ConstrainedIntegrator) (dt : ℚ) (n : Nat)
    (hinit : initIntegrator sf M sch = Except.ok s0)
    (hok : (TimeStepN dt n s0).2 = none) :
    (TimeStepN dt n s0).1.current_time = 0 := by
  rw [timeStepN_state dt n s0 hok]
  exact initIntegrator_current_time sf M sch s0 hinit

theorem time_step_current_time_unchanged_witness :
    (TimeStepN 1 3 ⟨fun _ => 0, [[1]], 1, 0, "EULER"⟩).1.current_time = 0 :=
  time_step_current_time_unchanged (fun _ => 0) [[1]] "EULER"
    ⟨fun _ => 0, [[1]], 1, 0, "EULER"⟩ 1 3 rfl rfl

/-- Claim C2 counterexample: on a freshly constructed EULER integrator
(`current_time = 0`), a successful `TimeStep(1)` leaves `current_time`
equal to `0`, which differs from `current_time + dt = 1`. -/
theorem time_step_current_time_counterexample :
    (TimeStep 1 ⟨fun _ => 0, [[1]], 1, 0, "EULER"⟩).2 = none ∧
      (TimeStep 1 ⟨fun _ => 0, [[1]], 1, 0, "EULER"⟩).1.current_time ≠
        (⟨fun _ => 0, [[1]], 1, 0, "EULER"⟩ : ConstrainedIntegrator).current_time + 1 := by
  refine ⟨rfl, ?_⟩
  show (0 : ℚ) ≠ 0 + 1
  norm_num

/-- Claim C4: if a call to `TimeStep(dt)` raises an error (the only error
path in the code is the unreachable-scheme exit), the integrator state is
exactly what it was before the call: no partial update happens. -/
theorem failed_step_leaves_state_unchanged (dt : ℚ) (s : ConstrainedIntegrator)
    (e : StepError) (h : (TimeStep dt s).2 = some e) :
    (TimeStep dt s).1 = s := by
  by_cases h1 : s.scheme = "RFD"
  · simp [TimeStep, h1, RFDTimeStep] at h
  · by_cases h2 : s.scheme = "EULER"
    · simp [TimeStep, h1, h2, EulerTimeStep] at h
    · simp [TimeStep, h1, h2]

theorem failed_step_leaves_state_unchanged_witness :
    (TimeStep 1 ⟨fun _ => 0, [[1]], 1, 0, "FOO"⟩).1 =
      ⟨fun _ => 0, [[1]], 1, 0, "FOO"⟩ :=
  failed_step_leaves_state_unchanged 1 ⟨fun _ => 0, [[1]], 1, 0, "FOO"⟩
    StepError.unreachableScheme rfl

/-- Claim C8 (amended): `TimeStep` performs no validation of `dt`: for
every `dt`, including `dt ≤ 0`, and every integrator whose scheme is
"RFD" or "EULER", the call dispatches to the scheme and raises no error. -/
theorem time_step_no_dt_check (dt : ℚ) (s : ConstrainedIntegrator)
    (hscheme : s.scheme = "RFD" ∨ s.scheme = "EULER") :
    (TimeStep dt s).2 = none := by
  rw [timeStep_valid dt s hscheme]

theorem time_step_no_dt_check_witness :
    (TimeStep (-1) ⟨fun _ => 0, [[1]], 1, 0, "EULER"⟩).2 = none :=
  time_step_no_dt_check (-1) ⟨fun _ => 0, [[1]], 1, 0, "EULER"⟩ (Or.inr rfl)

/-- Claim C8 counterexample: `TimeStep(-1)` on a validly constructed EULER
integrator succeeds (raises no error) even though `dt = -1 ≤ 0`. -/
theorem time_step_negative_dt_counterexample :
    ((-1 : ℚ) ≤ 0) ∧
      (TimeStep (-1) ⟨fun _ => 0, [[1]], 1, 0, "EULER"⟩).2 = none :=
  ⟨by norm_num, rfl⟩

/-- Claim C5 (code bug): `ApplyMobility` never returns the documented
matrix-vector product: line 63 evaluates the unbound name `zeros` (the
module imports only `sys`), so the call on mobility `[[2]]` with force
`[1]` raises `NameError` instead of returning the product `[2]` that the
method's own docstring (`velocity = mobility*force`) promises. -/
theorem apply_mobility_matvec_code_bug :
    ApplyMobility ⟨fun _ => 0, [[2]], 1, 0, "EULER"⟩ [1] =
        Except.error PyErr.nameError ∧
      matvecQ [[2]] [1] = [2] :=
  ⟨rfl, by norm_num [matvecQ, dotQ]⟩

/-- Claim C6 (code bug): no linearity identity over returned velocities
can hold, because every one of the three `ApplyMobility` calls it relates
raises `NameError` (unbound `zeros` at line 63) and returns no velocity;
shown here at `a = 2`, `b = 3`, `F1 = [1]`, `F2 = [0]` on mobility
`[[1]]`. -/
theorem apply_mobility_linear_code_bug :
    ApplyMobility ⟨fun _ => 0, [[1]], 1, 0, "EULER"⟩
        (List.zipWith (fun x y => 2 * x + 3 * y) [1] [0]) =
      Except.error PyErr.nameError ∧
    ApplyMobility ⟨fun _ => 0, [[1]], 1, 0, "EULER"⟩ [1] =
      Except.error PyErr.nameError ∧
    ApplyMobility ⟨fun _ => 0, [[1]], 1, 0, "EULER"⟩ [0] =
      Except.error PyErr.nameError :=
  ⟨rfl, rfl, rfl⟩

/-- Claim C7 counterexample: a force vector of length exactly `dim` — for
which the claim says `ApplyMobility` must not fail — fails all the same:
the call raises `NameError` at line 63 before any dimension check or
element access, so the claimed fails-iff-wrong-length behavior is false. -/
theorem apply_mobility_equal_length_fails_counterexample :
    ([1] : List ℚ).length =
        (⟨fun _ => 0, [[1]], 1, 0, "EULER"⟩ : ConstrainedIntegrator).dim ∧
      ApplyMobility ⟨fun _ => 0, [[1]], 1, 0, "EULER"⟩ [1] =
        Except.error PyErr.nameError :=
  ⟨rfl, rfl⟩

/-- Claim C7 (amended): `ApplyMobility` fails for every force vector, of
every length — equal to, shorter or longer than `dim` — with a Python
`NameError` raised at line 63 (`zeros` is unbound: the module imports only
`sys`), before any dimension check or element access; no `DimensionError`
type exists in the code. -/
theorem apply_mobility_always_name_error (s : ConstrainedIntegrator)
    (force : List ℚ) :
    ApplyMobility s force = Except.error PyErr.nameError :=
  rfl

/-- A 3-vector of rationals, modelling one row of a numpy `(N, 3)` array. -/
abbrev Vec3 := ℚ × ℚ × ℚ

/-- In-place `force_blobs[i] += v` on a list of 3-vectors (no effect when
`i` is out of range). -/
def addAt (v : Vec3) : Nat → List Vec3 → List Vec3
  | _, [] => []
  | 0, x :: xs => (x + v) :: xs
  | i + 1, x :: xs => x :: addAt v i xs

/-- The index pairs visited by the double loop of
`calc_blob_blob_forces_python` (lines 198-199 of
`multi_bodies/multi_bodies_functions.py`):
`for i in range(Nblobs-1): for j in range(i+1, Nblobs)`. -/
def blobPairs (n : Nat) : List (Nat × Nat) :=
  (List.range (n - 1)).flatMap
    (fun i => (List.range' (i + 1) (n - (i + 1))).map (fun j => (i, j)))

/-- `calc_blob_blob_forces_python(r_vectors, ...)` (lines 189-206):
`r_vectors` is the `(Nblobs, 3)` array of blob positions, and
`blob_blob_force` — the pair force with its `*args, **kwargs` parameters
already applied — is abstracted as the function `f` of the centre-to-centre
vector `r = r_vectors[j] - r_vectors[i]`.  `force_blobs` starts as
`np.zeros((Nblobs, 3))` and each pair adds `force` to blob `i` and
subtracts it from blob `j`.  `pairStep` is the body of the double loop
(lines 200-204). -/
def pairStep (f : Vec3 → Vec3) (r_vectors : List Vec3)
    (force_blobs : List Vec3) (p : Nat × Nat) : List Vec3 :=
  let r := r_vectors.getD p.2 0 - r_vectors.getD p.1 0
  let force := f r
  addAt (-force) p.2 (addAt force p.1 force_blobs)

def calc_blob_blob_forces_python (f : Vec3 → Vec3) (r_vectors : List Vec3) :
    List Vec3 :=
  (blobPairs r_vectors.length).foldl (pairStep f r_vectors)
    (List.replicate r_vectors.length 0)

/-- Tags for the functions returned by `set_blob_blob_forces`
(lines 144-163): `default_zero_r_vectors`, `calc_blob_blob_forces_python`,
`calc_blob_blob_forces_boost`, `forces_pycuda.calc_blob_blob_forces_pycuda`. -/
inductive BlobForceImpl where
  | default_zero_r_vectors
  | python
  | boost
  | pycuda
deriving DecidableEq

/-- `set_blob_blob_forces(implementation)` (lines 144-163): an `if/elif`
chain with no `else`, so any unrecognized implementation name falls
through and Python implicitly returns `None`. -/
def set_blob_blob_forces (implementation : String) : Option BlobForceImpl :=
  if implementation = "None" then some BlobForceImpl.default_zero_r_vectors
  else if implementation = "python" then some BlobForceImpl.python
  else if implementation = "C++" then some BlobForceImpl.boost
  else if implementation = "pycuda" then some BlobForceImpl.pycuda
  else none

theorem addAt_length (v : Vec3) :
    ∀ (i : Nat) (l : List Vec3), (addAt v i l).length = l.length := by
  intro i
  induction i with
  | zero => intro l; cases l <;> simp [addAt]
  | succ i ih =>
    intro l
    cases l with
    | nil => simp [addAt]
    | cons x xs => simp [addAt, ih]

theorem addAt_sum (v : Vec3) :
    ∀ (i : Nat) (l : List Vec3), i < l.length →
      (addAt v i l).sum = l.sum + v := by
  intro i
  induction i with
  | zero =>
    intro l hl
    cases l with
    | nil => simp at hl
    | cons x xs => simp [addAt]; abel
  | succ i ih =>
    intro l hl
    cases l with
    | nil => simp at hl
    | cons x xs =>
      simp only [addAt, List.sum_cons, ih xs (by simpa using hl)]
      abel

theorem blobPairs_bounds (n : Nat) :
    ∀ p ∈ blobPairs n, p.1 < n ∧ p.2 < n := by
  intro p hp
  simp only [blobPairs, List.mem_flatMap, List.mem_map, List.mem_range] at hp
  obtain ⟨i, hi, j, hj, rfl⟩ := hp
  rw [List.mem_range'_1] at hj
  omega

theorem pairStep_length (f : Vec3 → Vec3) (rv : List Vec3)
    (fb : List Vec3) (p : Nat × Nat) :
    (pairStep f rv fb p).length = fb.length := by
  simp [pairStep, addAt_length]

theorem pairStep_sum (f : Vec3 → Vec3) (rv : List Vec3)
    (fb : List Vec3) (p : Nat × Nat)
    (h1 : p.1 < fb.length) (h2 : p.2 < fb.length) :
    (pairStep f rv fb p).sum = fb.sum := by
  simp only [pairStep]
  rw [addAt_sum _ p.2 _ (by rw [addAt_length]; exact h2),
    addAt_sum _ p.1 fb h1]
  abel

theorem foldl_pairStep_sum (f : Vec3 → Vec3) (rv : List Vec3) :
    ∀ (ps : List (Nat × Nat)) (acc : List Vec3),
      (∀ p ∈ ps, p.1 < acc.length ∧ p.2 < acc.length) →
      (ps.foldl (pairStep f rv) acc).sum = acc.sum := by
  intro ps
  induction ps with
  | nil => intro acc _; rfl
  | cons p ps ih =>
    intro acc hb
    obtain ⟨h1, h2⟩ := hb p (List.mem_cons_self p ps)
    rw [List.foldl_cons,
      ih (pairStep f rv acc p) (by
        intro q hq
        rw [pairStep_length]
        exact hb q (List.mem_cons_of_mem p hq)),
      pairStep_sum f rv acc p h1 h2]

/-- Claim C9: for every pair-force function and every array of blob
positions, the blob-blob force array returned by
`calc_blob_blob_forces_python` sums to the zero vector (Newton's third
law): each pairwise force is added to blob `i` and subtracted from blob
`j`, so the total cancels exactly; for zero or one blob no pair is
visited and the result is the all-zero array. -/
theorem blob_blob_forces_sum_zero (f : Vec3 → Vec3) (r_vectors : List Vec3) :
    (calc_blob_blob_forces_python f r_vectors).sum = 0 := by
  rw [calc_blob_blob_forces_python,
    foldl_pairStep_sum f r_vectors (blobPairs r_vectors.length)
      (List.replicate r_vectors.length 0)
      (by
        intro p hp
        rw [List.length_replicate]
        exact blobPairs_bounds r_vectors.length p hp)]
  simp

/-- Claim C10: `set_blob_blob_forces(implementation)` returns a force
function exactly for the names "None", "python", "C++", "pycuda"; for
every other name the `if/elif` chain falls through and it silently
returns `None` without raising any error. -/
theorem set_blob_blob_forces_some_iff (implementation : String) :
    (set_blob_blob_forces implementation).isSome = true ↔
      implementation ∈ (["None", "python", "C++", "pycuda"] : List String) := by
  unfold set_blob_blob_forces
  split_ifs with h1 h2 h3 h4 <;> simp_all
